import Mathlib

/-!
Shallow embedding of the swap coordinator of the `xud` repository
(`src/lib/swaps/Swaps.ts`), together with the enum and packet declarations it
uses (`src/lib/types/enums.ts` and the packet body types).

Modelling conventions:
* JavaScript numbers are modelled as exact rationals (`ℚ`); `Math.round` is
  modelled by `mathRound` below (round half away from zero is `⌊x + 1/2⌋` for
  the nonnegative amounts involved, matching JS `Math.round` which rounds half
  up towards `+∞`).
* The in-memory `Map` of deals is modelled by an association list with
  JavaScript `Map.set` semantics (`mapSet`): setting an existing key replaces
  its value in place, otherwise the binding is appended.
* In-place mutation of a deal record is modelled by functional record update
  plus a write-back of the updated record into the registry at the key under
  which it was found.
* `assert` failures are modelled as `Except.error` carrying the assertion
  message; a `try { ... } catch (err) { ... }` block is modelled by pattern
  matching on the `Except` value of the body.
* Asynchronous chain-client calls (route queries, block height queries, HTLC
  sends) are modelled by oracle parameters carrying the outcome of the call.
* Event emission (`swap.paid` / `swap.failed`) and packet sends are modelled by
  returning lists of emitted events and sent packets.
-/

namespace Xud

/-- `SwapDealRole` from `src/lib/types/enums.ts`. -/
inductive SwapDealRole where
  | Taker
  | Maker
deriving DecidableEq, Repr

/-- `SwapDealPhase` from `src/lib/types/enums.ts`. -/
inductive SwapDealPhase where
  | SwapCreated
  | SwapRequested
  | SwapAgreed
  | AmountSent
  | AmountReceived
  | SwapCompleted
deriving DecidableEq, Repr

/-- `SwapDealState` from `src/lib/types/enums.ts`. -/
inductive SwapDealState where
  | Active
  | Error
  | Completed
deriving DecidableEq, Repr

/-- An lnd route; the coordinator only reads `getTotalTimeLock()`. -/
structure Route where
  totalTimeLock : ℚ
deriving DecidableEq, Repr

/-- The `SwapDeal` record type of `Swaps.ts` (lines 13-61). Optional fields of
the TypeScript type are modelled with `Option`. -/
structure SwapDeal where
  myRole : SwapDealRole
  phase : SwapDealPhase
  state : SwapDealState
  stateReason : String
  peerPubKey : String
  orderId : String
  localOrderId : String
  proposedQuantity : ℚ
  quantity : Option ℚ
  pairId : String
  takerAmount : ℚ
  takerCurrency : String
  takerPubKey : Option String
  takerCltvDelta : ℚ
  makerAmount : ℚ
  makerCurrency : String
  makerCltvDelta : Option ℚ
  price : ℚ
  r_hash : String
  r_preimage : Option String
  makerToTakerRoutes : Option (List Route)
  createTime : ℚ
  executeTime : Option ℚ
  competionTime : Option ℚ
deriving DecidableEq, Repr

/-- The `SwapResult` payload of the `swap.paid` event (`Swaps.ts` lines
663-674). `quantity` is `deal.quantity!`, which may be `undefined`. -/
structure SwapResult where
  orderId : String
  localId : String
  pairId : String
  quantity : Option ℚ
  amountReceived : ℚ
  amountSent : ℚ
  r_hash : String
  peerPubKey : String
  role : SwapDealRole
deriving DecidableEq, Repr

/-- Events emitted by the coordinator through its `EventEmitter` interface. -/
inductive SwapEvent where
  | swapPaid (res : SwapResult)
  | swapFailed (deal : SwapDeal)
deriving DecidableEq, Repr

/-- Outbound packets sent through `peer.sendPacket`. -/
inductive OutPacket where
  | swapRequest (r_hash : String)
  | swapResponse (r_hash : String) (quantity : Option ℚ) (makerCltvDelta : Option ℚ)
      (reqId : String)
  | swapComplete (r_hash : String)
  | swapError (r_hash : String) (errorMessage : String) (reqId : Option String)
deriving DecidableEq, Repr

/-- `Math.round`, for JavaScript numbers modelled as rationals: round half up
towards positive infinity. -/
def mathRound (x : ℚ) : ℚ := ((⌊x + 1 / 2⌋ : ℤ) : ℚ)

/-- `Swaps.calculateSwapAmounts` (lines 91-97): returns
`(takerAmount, makerAmount)`. -/
def calculateSwapAmounts (quantity price : ℚ) : ℚ × ℚ :=
  (mathRound (quantity * price * 100000000), mathRound (quantity * 100000000))

/-- `setDealState` (lines 608-622). A repeated `Error` assignment while already
in `Error` concatenates the reason and does not emit; any change away from a
non-`Active` state fails the assertion; setting `Error` from `Active` emits
`swap.failed` with the updated deal. -/
def setDealState (deal : SwapDeal) (newState : SwapDealState) (newStateReason : String) :
    Except String (SwapDeal × List SwapEvent) :=
  if deal.state = newState ∧ deal.state = SwapDealState.Error then
    Except.ok ({ deal with stateReason := deal.stateReason ++ "; " ++ newStateReason }, [])
  else if deal.state ≠ SwapDealState.Active then
    Except.error "deal is not Active. Can not change deal state"
  else
    let deal1 := { deal with state := newState, stateReason := newStateReason }
    if newState = SwapDealState.Error then
      Except.ok (deal1, [SwapEvent.swapFailed deal1])
    else
      Except.ok (deal1, [])

/-- Builds the `SwapResult` emitted with `swap.paid` (lines 664-674). -/
def mkSwapResult (deal : SwapDeal) : SwapResult :=
  { orderId := deal.orderId
    localId := deal.localOrderId
    pairId := deal.pairId
    quantity := deal.quantity
    amountReceived := deal.makerAmount
    amountSent := deal.takerAmount
    r_hash := deal.r_hash
    peerPubKey := deal.peerPubKey
    role := deal.myRole }

/-- The tail of `setDealPhase` (lines 661-676): assign the new phase, then emit
`swap.paid` if the new phase is `AmountReceived`. -/
def finishDealPhase (deal : SwapDeal) (evs : List SwapEvent) (newPhase : SwapDealPhase) :
    Except String (SwapDeal × List SwapEvent) :=
  let deal1 := { deal with phase := newPhase }
  if newPhase = SwapDealPhase.AmountReceived then
    Except.ok (deal1, evs ++ [SwapEvent.swapPaid (mkSwapResult deal1)])
  else
    Except.ok (deal1, evs)

/-- `setDealPhase` (lines 624-677). `now` stands for `Date.now()`. -/
def setDealPhase (deal : SwapDeal) (newPhase : SwapDealPhase) (now : ℚ) :
    Except String (SwapDeal × List SwapEvent) :=
  if deal.state ≠ SwapDealState.Active then
    Except.error "deal is not Active. Can not change deal phase"
  else
    match newPhase with
    | SwapDealPhase.SwapCreated =>
        Except.error "can not set deal phase to SwapCreated."
    | SwapDealPhase.SwapRequested =>
        if deal.myRole ≠ SwapDealRole.Taker then
          Except.error "SwapRequested can only be set by the taker"
        else if deal.phase ≠ SwapDealPhase.SwapCreated then
          Except.error "SwapRequested can be only be set after SwapCreated"
        else
          finishDealPhase deal [] newPhase
    | SwapDealPhase.SwapAgreed =>
        if deal.myRole ≠ SwapDealRole.Maker then
          Except.error "SwapAgreed can only be set by the maker"
        else if deal.phase ≠ SwapDealPhase.SwapCreated then
          Except.error "SwapAgreed can be only be set after SwapCreated"
        else
          finishDealPhase deal [] newPhase
    | SwapDealPhase.AmountSent =>
        if deal.myRole = SwapDealRole.Taker ∧ deal.phase = SwapDealPhase.SwapRequested ∨
            deal.myRole = SwapDealRole.Maker ∧ deal.phase = SwapDealPhase.SwapAgreed then
          finishDealPhase { deal with executeTime := some now } [] newPhase
        else
          Except.error "AmountSent can only be set after SwapRequested (taker) or SwapAgreed (maker)"
    | SwapDealPhase.AmountReceived =>
        if deal.phase ≠ SwapDealPhase.AmountSent then
          Except.error "AmountReceived can be only be set after AmountSent"
        else
          finishDealPhase deal [] newPhase
    | SwapDealPhase.SwapCompleted =>
        if deal.phase ≠ SwapDealPhase.AmountReceived then
          Except.error "SwapCompleted can be only be set after AmountReceived"
        else
          match setDealState { deal with competionTime := some now } SwapDealState.Completed
              ("Swap completed. preimage = " ++ (deal.r_preimage.getD "undefined")) with
          | Except.error e => Except.error e
          | Except.ok (deal1, evs) => finishDealPhase deal1 evs newPhase

/-- An operation applied to a single deal via the state machine. -/
inductive DealOp where
  | setState (s : SwapDealState) (reason : String)
  | setPhase (p : SwapDealPhase) (now : ℚ)
deriving DecidableEq, Repr

/-- One state machine operation on a deal. -/
def stepDeal (deal : SwapDeal) : DealOp → Except String (SwapDeal × List SwapEvent)
  | DealOp.setState s reason => setDealState deal s reason
  | DealOp.setPhase p now => setDealPhase deal p now

/-- Successively apply state machine operations to a deal, accumulating the
emitted events; the whole run fails if any assertion fails. -/
def runDeal (deal : SwapDeal) : List DealOp → Except String (SwapDeal × List SwapEvent)
  | [] => Except.ok (deal, [])
  | op :: ops =>
    match stepDeal deal op with
    | Except.error e => Except.error e
    | Except.ok (d1, evs1) =>
      match runDeal d1 ops with
      | Except.error e => Except.error e
      | Except.ok (d2, evs2) => Except.ok (d2, evs1 ++ evs2)

/-- Whether an event is a `swap.paid` emission. -/
def SwapEvent.isPaid : SwapEvent → Bool
  | SwapEvent.swapPaid _ => true
  | SwapEvent.swapFailed _ => false

/-- Whether an event is a `swap.failed` emission. -/
def SwapEvent.isFailed : SwapEvent → Bool
  | SwapEvent.swapPaid _ => false
  | SwapEvent.swapFailed _ => true

/-- Number of `swap.paid` events in a trace. -/
def countPaid (evs : List SwapEvent) : ℕ := (evs.filter SwapEvent.isPaid).length

/-- Number of `swap.failed` events in a trace. -/
def countFailed (evs : List SwapEvent) : ℕ := (evs.filter SwapEvent.isFailed).length

/-- The deal registry: `private deals = new Map<string, SwapDeal>()`, modelled
as an association list. -/
def DealMap := List (String × SwapDeal)

/-- JavaScript `Map.set` semantics: replace the binding for the key in place if
it exists, otherwise append it. -/
def mapSet : DealMap → String → SwapDeal → DealMap
  | [], k, v => [(k, v)]
  | (k1, v1) :: rest, k, v =>
    if k1 = k then (k, v) :: rest else (k1, v1) :: mapSet rest k v

/-- `getDeal` (lines 158-160): `Map.get`. -/
def getDeal : DealMap → String → Option SwapDeal
  | [], _ => none
  | (k1, v1) :: rest, k => if k1 = k then some v1 else getDeal rest k

/-- `addDeal` (lines 162-165): `this.deals.set(deal.r_hash, deal)` followed by
a debug log; reports nothing. -/
def addDeal (deals : DealMap) (deal : SwapDeal) : DealMap :=
  mapSet deals deal.r_hash deal

/-- The peer handle as consumed by the coordinator: `nodePubKey` and
`getLndPubKey(currency)`. -/
structure PeerInfo where
  nodePubKey : String
  lndPubKeys : List (String × String)
deriving DecidableEq, Repr

/-- `peer.getLndPubKey(currency)`. -/
def getLndPubKey (peer : PeerInfo) (currency : String) : Option String :=
  (peer.lndPubKeys.find? (fun kv => kv.1 = currency)).map (fun kv => kv.2)

/-- JavaScript truthiness test of an optional string: `undefined` and the
empty string are falsy. -/
def strFalsy : Option String → Bool
  | none => true
  | some s => s = ""

/-- The environment of the coordinator: connectivity and configured final-hop
CLTV deltas of the two chain clients, plus `Date.now()`. -/
structure Env where
  lndBtcConnected : Bool
  lndLtcConnected : Bool
  btcCltvDelta : ℚ
  ltcCltvDelta : ℚ
  now : ℚ
deriving DecidableEq, Repr

/-- `verifyLndSetup` (lines 132-151): returns an error message or `none` when
all is good. -/
def verifyLndSetup (env : Env) (deal : SwapDeal) (peer : PeerInfo) : Option String :=
  if strFalsy (getLndPubKey peer deal.takerCurrency) then
    some ("peer did not provide an LND PubKey for " ++ deal.takerCurrency)
  else if strFalsy (getLndPubKey peer deal.makerCurrency) then
    some ("peer did not provide an LND PubKey for " ++ deal.makerCurrency)
  else if !env.lndLtcConnected then
    some "Can not swap. Not connected to LTC network"
  else if !env.lndBtcConnected then
    some "Can not swap. Not connected to BTC network"
  else
    none

/-- The maker-leg CLTV delta computation of `acceptDeal` (lines 390-401):
`routeCltvDelta` is the first route's total timelock minus the queried block
height, `cltvDeltaFactor` is `ltc.cltvDelta / btc.cltvDelta`; an unknown maker
currency falls through the switch leaving `makerCltvDelta` undefined. -/
def acceptDealMakerCltvDelta (makerCurrency : String) (btcCltvDelta ltcCltvDelta : ℚ)
    (firstRouteTotalTimeLock height : ℚ) : Option ℚ :=
  let routeCltvDelta := firstRouteTotalTimeLock - height
  let cltvDeltaFactor := ltcCltvDelta / btcCltvDelta
  if makerCurrency = "BTC" then
    some (btcCltvDelta + routeCltvDelta / cltvDeltaFactor)
  else if makerCurrency = "LTC" then
    some (ltcCltvDelta + routeCltvDelta * cltvDeltaFactor)
  else
    none

/-- The body of a `SwapRequest` packet. -/
structure SwapRequestBody where
  takerCurrency : String
  makerCurrency : String
  takerAmount : ℚ
  makerAmount : ℚ
  takerCltvDelta : ℚ
  r_hash : String
  orderId : String
  pairId : String
  proposedQuantity : ℚ
deriving DecidableEq, Repr

/-- The `OrderToAccept` input of `acceptDeal` (lines 63-67). -/
structure OrderToAccept where
  quantityToAccept : ℚ
  price : ℚ
  localId : String
deriving DecidableEq, Repr

/-- Outcome of an awaited `queryRoutes` call: exception message or route
list. -/
structure MakerOracle where
  queryRoutesResult : Except String (List Route)
  getInfoResult : Except String ℚ
deriving Repr

/-- The error exit shared by `acceptDeal`'s failure branches: set the deal to
`Error`, write it back, and send a `SwapError` packet carrying the (possibly
aggregated) `stateReason` and the request id. -/
def acceptDealFail (deals : DealMap) (deal : SwapDeal) (errMsg : String) (reqId : String) :
    Except String (DealMap × List SwapEvent × List OutPacket × Bool) :=
  match setDealState deal SwapDealState.Error errMsg with
  | Except.error e => Except.error e
  | Except.ok (d1, evs) =>
    Except.ok (mapSet deals d1.r_hash d1, evs,
      [OutPacket.swapError d1.r_hash d1.stateReason (some reqId)], false)

/-- `acceptDeal` (lines 309-414). The route query and block height query are
supplied by `oracle`. Returns the updated registry, the emitted events, the
sent packets, and the boolean result of the method. -/
def acceptDeal (env : Env) (oracle : MakerOracle) (deals : DealMap)
    (orderToAccept : OrderToAccept) (requestBody : SwapRequestBody) (reqId : String)
    (peer : PeerInfo) :
    Except String (DealMap × List SwapEvent × List OutPacket × Bool) :=
  let deal : SwapDeal :=
    { myRole := SwapDealRole.Maker
      phase := SwapDealPhase.SwapCreated
      state := SwapDealState.Active
      stateReason := ""
      peerPubKey := peer.nodePubKey
      orderId := requestBody.orderId
      localOrderId := orderToAccept.localId
      proposedQuantity := requestBody.proposedQuantity
      quantity := some orderToAccept.quantityToAccept
      pairId := requestBody.pairId
      takerAmount := requestBody.takerAmount
      takerCurrency := requestBody.takerCurrency
      takerPubKey := getLndPubKey peer requestBody.takerCurrency
      takerCltvDelta := requestBody.takerCltvDelta
      makerAmount := requestBody.makerAmount
      makerCurrency := requestBody.makerCurrency
      makerCltvDelta := none
      price := orderToAccept.price
      r_hash := requestBody.r_hash
      r_preimage := none
      makerToTakerRoutes := none
      createTime := env.now
      executeTime := none
      competionTime := none }
  let deals := addDeal deals deal
  match verifyLndSetup env deal peer with
  | some errMsg => acceptDealFail deals deal errMsg reqId
  | none =>
    if deal.takerCurrency ≠ "BTC" ∧ deal.takerCurrency ≠ "LTC" then
      acceptDealFail deals deal "Can not swap. Unsupported taker currency." reqId
    else
      match oracle.queryRoutesResult with
      | Except.error errMsg =>
        acceptDealFail deals deal
          ("Can not swap. unable to find route to destination: " ++ errMsg) reqId
      | Except.ok routes =>
        let deal := { deal with makerToTakerRoutes := some routes }
        match routes with
        | [] =>
          acceptDealFail deals deal "Can not swap. unable to find route to destination." reqId
        | route0 :: _ =>
          match oracle.getInfoResult with
          | Except.error errMsg =>
            acceptDealFail deals deal
              ("Can not swap. Unable to fetch block height: " ++ errMsg) reqId
          | Except.ok height =>
            let mcd := acceptDealMakerCltvDelta requestBody.makerCurrency env.btcCltvDelta
              env.ltcCltvDelta route0.totalTimeLock height
            let deal := { deal with makerCltvDelta := mcd }
            let responsePacket := OutPacket.swapResponse requestBody.r_hash
              (some requestBody.proposedQuantity) deal.makerCltvDelta reqId
            match setDealPhase deal SwapDealPhase.SwapAgreed env.now with
            | Except.error e => Except.error e
            | Except.ok (d1, evs) =>
              Except.ok (mapSet deals d1.r_hash d1, evs, [responsePacket], true)

/-- A remote maker order as consumed by `beginSwap` (`StampedPeerOrder`). -/
structure StampedPeerOrder where
  id : String
  pairId : String
  price : ℚ
  peerPubKey : String
deriving DecidableEq, Repr

/-- A local taker order as consumed by `beginSwap` (`StampedOwnOrder`). -/
structure StampedOwnOrder where
  localId : String
  quantity : ℚ
  isBuy : Bool
deriving DecidableEq, Repr

/-- Splits a character list at every occurrence of `sep`, keeping empty
groups, by structural recursion (the JavaScript `String.split` semantics for a
one-character separator). -/
def splitOnChar (sep : Char) : List Char → List (List Char)
  | [] => [[]]
  | c :: cs =>
    if c = sep then [] :: splitOnChar sep cs
    else
      match splitOnChar sep cs with
      | [] => [[c]]
      | group :: rest => (c :: group) :: rest

/-- `pairId.split('/')`. -/
def splitSlash (s : String) : List String :=
  (splitOnChar (Char.ofNat 47) s.data).map String.mk

/-- `beginSwap` (lines 234-302). The 32 random preimage bytes and their SHA-256
hash are abstracted as the oracle inputs `preimageHex` and `rHashHex` (the
coordinator never recomputes the hash). Returns the updated registry, emitted
events, sent packets, and the returned `r_hash` (or `undefined`). -/
def beginSwap (env : Env) (preimageHex rHashHex : String) (deals : DealMap)
    (maker : StampedPeerOrder) (taker : StampedOwnOrder) (peer : PeerInfo) :
    Except String (DealMap × List SwapEvent × List OutPacket × Option String) :=
  let parts := splitSlash maker.pairId
  let baseCurrency := parts.getD 0 ""
  let quoteCurrency := parts.getD 1 ""
  let takerCurrency := if taker.isBuy then baseCurrency else quoteCurrency
  let makerCurrency := if taker.isBuy then quoteCurrency else baseCurrency
  let takerCltvDelta : ℚ :=
    if takerCurrency = "BTC" then env.btcCltvDelta
    else if takerCurrency = "LTC" then env.ltcCltvDelta
    else 0
  let amounts := calculateSwapAmounts taker.quantity maker.price
  let deal : SwapDeal :=
    { myRole := SwapDealRole.Taker
      phase := SwapDealPhase.SwapCreated
      state := SwapDealState.Active
      stateReason := ""
      peerPubKey := peer.nodePubKey
      orderId := maker.id
      localOrderId := taker.localId
      proposedQuantity := taker.quantity
      quantity := none
      pairId := maker.pairId
      takerAmount := amounts.1
      takerCurrency := takerCurrency
      takerPubKey := none
      takerCltvDelta := takerCltvDelta
      makerAmount := amounts.2
      makerCurrency := makerCurrency
      makerCltvDelta := none
      price := maker.price
      r_hash := rHashHex
      r_preimage := some preimageHex
      makerToTakerRoutes := none
      createTime := env.now
      executeTime := none
      competionTime := none }
  let deals := addDeal deals deal
  match verifyLndSetup env deal peer with
  | some errMsg =>
    match setDealState deal SwapDealState.Error errMsg with
    | Except.error e => Except.error e
    | Except.ok (d1, evs) => Except.ok (mapSet deals d1.r_hash d1, evs, [], none)
  | none =>
    match setDealPhase deal SwapDealPhase.SwapRequested env.now with
    | Except.error e => Except.error e
    | Except.ok (d1, evs) =>
      Except.ok (mapSet deals d1.r_hash d1, evs, [OutPacket.swapRequest deal.r_hash],
        some deal.r_hash)

/-- The body of a `SwapResponse` packet as read by `handleSwapResponse`. -/
structure SwapResponseBody where
  r_hash : String
  quantity : Option ℚ
  makerCltvDelta : Option ℚ
deriving DecidableEq, Repr

/-- The `lndrpc.SendRequest` built by `handleSwapResponse` (lines 460-465). -/
structure SendRequest where
  amt : ℚ
  destString : Option String
  paymentHashString : String
  finalCltvDelta : Option ℚ
deriving DecidableEq, Repr

/-- Outcome of an awaited HTLC send (`sendPaymentSync` / `sendToRouteSync`):
the call threw, or returned a response with a nonempty `paymentError`, or
succeeded returning a payment preimage. -/
inductive SendOutcome where
  | threw (msg : String)
  | paymentError (msg : String)
  | success (paymentPreimageHex : String)
deriving DecidableEq, Repr

/-- The success continuation of `handleSwapResponse` (lines 476-484), run after
`sendPaymentSync` returns without a payment error. The returned preimage is
decoded to hex and then dropped (the comparison against the deal's stored
preimage is a TODO at line 477); the deal advances to `SwapCompleted` and a
`SwapComplete` packet is sent. -/
def handleSendSuccess (deal : SwapDeal) (r_hash : String) (paymentPreimageHex : String)
    (now : ℚ) : Except String (SwapDeal × List SwapEvent × List OutPacket) :=
  let _r_preimage := paymentPreimageHex
  match setDealPhase deal SwapDealPhase.SwapCompleted now with
  | Except.error e => Except.error e
  | Except.ok (d1, evs) => Except.ok (d1, evs, [OutPacket.swapComplete r_hash])

/-- The catch block of `handleSwapResponse` (lines 485-490): set the deal to
`Error` with the caught message and send a `SwapError` packet (no request
id). -/
def handleSwapResponseCatch (deal : SwapDeal) (r_hash : String) (errMsg : String) :
    Except String (SwapDeal × List SwapEvent × List OutPacket) :=
  match setDealState deal SwapDealState.Error errMsg with
  | Except.error e => Except.error e
  | Except.ok (d1, evs) => Except.ok (d1, evs, [OutPacket.swapError r_hash errMsg none])

/-- `handleSwapResponse` (lines 420-492), with the outcome of the awaited
`sendPaymentSync` supplied by `outcome`. Returns the updated registry, emitted
events, sent packets, and the list of HTLC send requests issued to the chain
client. Modelling note: the model composes the send continuation synchronously;
in the running system the taker's resolver may run during the awaited send, so
the success continuation `handleSendSuccess` is also exposed separately. -/
def handleSwapResponse (deals : DealMap) (body : SwapResponseBody) (peer : PeerInfo)
    (outcome : SendOutcome) (now : ℚ) :
    Except String (DealMap × List SwapEvent × List OutPacket × List SendRequest) :=
  match getDeal deals body.r_hash with
  | none => Except.ok (deals, [], [], [])
  | some deal0 =>
    let deal1 := { deal0 with makerCltvDelta := body.makerCltvDelta }
    let deal2 :=
      match body.quantity with
      | some q => if q ≠ 0 then { deal1 with quantity := some q } else deal1
      | none => deal1
    if deal2.makerCurrency = "BTC" ∨ deal2.makerCurrency = "LTC" then
      let request : SendRequest :=
        { amt := deal2.makerAmount
          destString := getLndPubKey peer deal2.makerCurrency
          paymentHashString := deal2.r_hash
          finalCltvDelta := deal2.makerCltvDelta }
      match setDealPhase deal2 SwapDealPhase.AmountSent now with
      | Except.error e =>
        match handleSwapResponseCatch deal2 body.r_hash e with
        | Except.error e2 => Except.error e2
        | Except.ok (d3, evs, pkts) => Except.ok (mapSet deals body.r_hash d3, evs, pkts, [])
      | Except.ok (d3, evs3) =>
        match outcome with
        | SendOutcome.success pre =>
          match handleSendSuccess d3 body.r_hash pre now with
          | Except.error e =>
            match handleSwapResponseCatch d3 body.r_hash e with
            | Except.error e2 => Except.error e2
            | Except.ok (d4, evs4, pkts) =>
              Except.ok (mapSet deals body.r_hash d4, evs3 ++ evs4, pkts, [request])
          | Except.ok (d4, evs4, pkts) =>
            Except.ok (mapSet deals body.r_hash d4, evs3 ++ evs4, pkts, [request])
        | SendOutcome.paymentError pe =>
          match handleSwapResponseCatch d3 body.r_hash pe with
          | Except.error e2 => Except.error e2
          | Except.ok (d4, evs4, pkts) =>
            Except.ok (mapSet deals body.r_hash d4, evs3 ++ evs4, pkts, [request])
        | SendOutcome.threw m =>
          match handleSwapResponseCatch d3 body.r_hash m with
          | Except.error e2 => Except.error e2
          | Except.ok (d4, evs4, pkts) =>
            Except.ok (mapSet deals body.r_hash d4, evs3 ++ evs4, pkts, [request])
    else
      Except.ok (mapSet deals body.r_hash deal2, [], [], [])

/-- The `lndrpc.ResolveRequest` fields read by `validateRequest` and
`resolveHash`. -/
structure ResolveRequest where
  hash : String
  amount : ℚ
  timeout : ℚ
  heightNow : ℚ
deriving DecidableEq, Repr

/-- `validateRequest` (lines 498-542). For the maker role `deal.makerCltvDelta!`
may be `undefined`, in which case the JavaScript comparison
`undefined > timeout - heightNow` is false and the timelock check passes; this
is modelled by the `Option` match. Returns the updated deal, emitted events,
and the boolean validation result. -/
def validateRequest (deal : SwapDeal) (req : ResolveRequest) :
    Except String (SwapDeal × List SwapEvent × Bool) :=
  let expectedAmount : ℚ :=
    (match deal.myRole with
      | SwapDealRole.Maker => deal.makerAmount
      | SwapDealRole.Taker => deal.takerAmount) * 1000
  let cltvDelta : Option ℚ :=
    match deal.myRole with
    | SwapDealRole.Maker => deal.makerCltvDelta
    | SwapDealRole.Taker => some deal.takerCltvDelta
  let source :=
    match deal.myRole with
    | SwapDealRole.Maker => "Taker"
    | SwapDealRole.Taker => "Maker"
  if req.amount < expectedAmount then
    match setDealState deal SwapDealState.Error
        ("Amount sent from " ++ source ++ " to " ++ "destination" ++ "is too small") with
    | Except.error e => Except.error e
    | Except.ok (d1, evs) => Except.ok (d1, evs, false)
  else if (match cltvDelta with
      | some c => decide (req.timeout - req.heightNow < c)
      | none => false) then
    match setDealState deal SwapDealState.Error
        ("cltvDelta sent from " ++ source ++ " to " ++ "destination" ++ "is too small") with
    | Except.error e => Except.error e
    | Except.ok (d1, evs) => Except.ok (d1, evs, false)
  else
    Except.ok (deal, [], true)

/-- `resolveHash` (lines 546-606), with the outcome of the maker's awaited
`sendToRouteSync` supplied by `outcome` (unused on the taker path and on
validation failure). Returns the updated registry, emitted events, and the
string handed back to the chain client (a preimage on success, otherwise a
reason; a taker deal with no stored preimage returns `undefined`, modelled as
the string `"undefined"`). -/
def resolveHash (deals : DealMap) (req : ResolveRequest) (outcome : SendOutcome) (now : ℚ) :
    Except String (DealMap × List SwapEvent × String) :=
  match getDeal deals req.hash with
  | none => Except.ok (deals, [], "Something went wrong. Can't find deal: " ++ req.hash)
  | some deal =>
    match validateRequest deal req with
    | Except.error e => Except.error e
    | Except.ok (d1, evs1, valid) =>
      if !valid then
        Except.ok (mapSet deals req.hash d1, evs1, d1.stateReason)
      else
        match d1.myRole with
        | SwapDealRole.Maker =>
          match setDealPhase d1 SwapDealPhase.AmountSent now with
          | Except.error e =>
            match setDealState d1 SwapDealState.Error e with
            | Except.error e2 => Except.error e2
            | Except.ok (d2, evs2) =>
              Except.ok (mapSet deals req.hash d2, evs1 ++ evs2,
                "Got exception from sendPaymentSync" ++ e)
          | Except.ok (d2, evs2) =>
            match outcome with
            | SendOutcome.paymentError pe =>
              match setDealState d2 SwapDealState.Error pe with
              | Except.error e2 => Except.error e2
              | Except.ok (d3, evs3) =>
                Except.ok (mapSet deals req.hash d3, evs1 ++ evs2 ++ evs3, pe)
            | SendOutcome.threw m =>
              match setDealState d2 SwapDealState.Error m with
              | Except.error e2 => Except.error e2
              | Except.ok (d3, evs3) =>
                Except.ok (mapSet deals req.hash d3, evs1 ++ evs2 ++ evs3,
                  "Got exception from sendPaymentSync" ++ m)
            | SendOutcome.success pre =>
              let d3 := { d2 with r_preimage := some pre }
              match setDealPhase d3 SwapDealPhase.AmountReceived now with
              | Except.error e =>
                match setDealState d3 SwapDealState.Error e with
                | Except.error e2 => Except.error e2
                | Except.ok (d4, evs4) =>
                  Except.ok (mapSet deals req.hash d4, evs1 ++ evs2 ++ evs4,
                    "Got exception from sendPaymentSync" ++ e)
              | Except.ok (d4, evs4) =>
                Except.ok (mapSet deals req.hash d4, evs1 ++ evs2 ++ evs4, pre)
        | SwapDealRole.Taker =>
          match setDealPhase d1 SwapDealPhase.AmountReceived now with
          | Except.error e => Except.error e
          | Except.ok (d2, evs2) =>
            Except.ok (mapSet deals req.hash d2, evs1 ++ evs2,
              d2.r_preimage.getD "undefined")

/-- `handleSwapComplete` (lines 679-687): unknown hashes are only logged;
otherwise the deal is advanced to `SwapCompleted` (in `setDealPhase`, whose
assertions are uncaught here). This handler sends no packets. -/
def handleSwapComplete (deals : DealMap) (r_hash : String) (now : ℚ) :
    Except String (DealMap × List SwapEvent × List OutPacket) :=
  match getDeal deals r_hash with
  | none => Except.ok (deals, [], [])
  | some deal =>
    match setDealPhase deal SwapDealPhase.SwapCompleted now with
    | Except.error e => Except.error e
    | Except.ok (d1, evs) => Except.ok (mapSet deals r_hash d1, evs, [])

/-- `handleSwapError` (lines 689-697): unknown hashes are only logged;
otherwise the deal is set to `Error` with the supplied message. This handler
sends no packets. -/
def handleSwapError (deals : DealMap) (r_hash : String) (errorMessage : String) :
    Except String (DealMap × List SwapEvent × List OutPacket) :=
  match getDeal deals r_hash with
  | none => Except.ok (deals, [], [])
  | some deal =>
    match setDealState deal SwapDealState.Error errorMessage with
    | Except.error e => Except.error e
    | Except.ok (d1, evs) => Except.ok (mapSet deals r_hash d1, evs, [])

/-- A deal has reached the `swap.paid` emission point when its phase is
`AmountReceived` or beyond. -/
def reachedPaid (d : SwapDeal) : Prop :=
  d.phase = SwapDealPhase.AmountReceived ∨ d.phase = SwapDealPhase.SwapCompleted

instance (d : SwapDeal) : Decidable (reachedPaid d) :=
  inferInstanceAs (Decidable (_ ∨ _))

/-! Concrete test fixtures used by the witness and counterexample theorems
below. `exampleTakerDeal` is the deal `beginSwap` builds for the happy-path
taker of spec scenario 1 (quantity 1, price 0.01), already advanced to
`SwapRequested`. -/

/-- A taker deal awaiting the maker's response. -/
def exampleTakerDeal : SwapDeal :=
  { myRole := SwapDealRole.Taker
    phase := SwapDealPhase.SwapRequested
    state := SwapDealState.Active
    stateReason := ""
    peerPubKey := "peer1"
    orderId := "O1"
    localOrderId := "L1"
    proposedQuantity := 1
    quantity := none
    pairId := "LTC/BTC"
    takerAmount := 1000000
    takerCurrency := "LTC"
    takerPubKey := none
    takerCltvDelta := 144
    makerAmount := 100000000
    makerCurrency := "BTC"
    makerCltvDelta := some 50
    price := 1 / 100
    r_hash := "h1"
    r_preimage := some "aa11"
    makerToTakerRoutes := none
    createTime := 0
    executeTime := none
    competionTime := none }

/-- A registry holding `exampleTakerDeal` under its hash. -/
def exampleDeals : DealMap := [("h1", exampleTakerDeal)]

/-- A maker deal that has already sent its HTLC. -/
def c2Deal : SwapDeal :=
  { exampleTakerDeal with myRole := SwapDealRole.Maker, phase := SwapDealPhase.AmountSent }

/-- Advance `c2Deal` to `AmountReceived`, then report an error for it. -/
def c2Ops : List DealOp :=
  [DealOp.setPhase SwapDealPhase.AmountReceived 7,
   DealOp.setState SwapDealState.Error "peer reported failure"]

/-- An incoming HTLC one msat short of the expected taker amount
(`1000000 * 1000`). -/
def c1ReqSmall : ResolveRequest :=
  { hash := "h1", amount := 999999999, timeout := 500, heightNow := 0 }

/-- The taker deal after its resolver released the preimage: phase
`AmountReceived`, still `Active`. -/
def c4Deal : SwapDeal := { exampleTakerDeal with phase := SwapDealPhase.AmountReceived }

/-- A peer advertising lnd pubkeys for both currencies. -/
def examplePeer : PeerInfo :=
  { nodePubKey := "peer1", lndPubKeys := [("BTC", "btcPK"), ("LTC", "ltcPK")] }

/-- A swap response accepting MORE than the proposed quantity (2 > 1). -/
def c5Body : SwapResponseBody :=
  { r_hash := "h1", quantity := some 2, makerCltvDelta := some 50 }

/-- A swap response carrying quantity 0. -/
def c5BodyZero : SwapResponseBody :=
  { r_hash := "h1", quantity := some 0, makerCltvDelta := some 50 }

/-- A deal already in the `Error` state with reason `"A"`. -/
def c6Deal : SwapDeal :=
  { exampleTakerDeal with state := SwapDealState.Error, stateReason := "A" }

/-- Report a second error for a deal that is already in `Error`. -/
def c6Ops : List DealOp := [DealOp.setState SwapDealState.Error "B"]

/-- Both chain clients connected, with the configured final-hop deltas of spec
scenario 1. -/
def exampleEnv : Env :=
  { lndBtcConnected := true, lndLtcConnected := true, btcCltvDelta := 40,
    ltcCltvDelta := 576, now := 0 }

/-- A taker order for quantity 2. -/
def c7Taker : StampedOwnOrder := { localId := "L1", quantity := 2, isBuy := true }

/-- The maker order being filled (price 0.01). -/
def c7Maker : StampedPeerOrder :=
  { id := "O1", pairId := "LTC/BTC", price := 1 / 100, peerPubKey := "peer1" }

/-- A swap response accepting only quantity 1 of the proposed 2. -/
def c7Body : SwapResponseBody :=
  { r_hash := "h7", quantity := some 1, makerCltvDelta := some 50 }

/-- The inbound swap request of spec scenario 2. -/
def c10Request : SwapRequestBody :=
  { takerCurrency := "LTC", makerCurrency := "BTC", takerAmount := 100000000,
    makerAmount := 1000000, takerCltvDelta := 576, r_hash := "h1", orderId := "O1",
    pairId := "LTC/BTC", proposedQuantity := 1 }

/-- The order descriptor the maker accepts. -/
def c10Order : OrderToAccept := { quantityToAccept := 1, price := 1 / 100, localId := "M1" }

/-- A route query returning one route with total timelock 144 above height 0. -/
def c10Oracle : MakerOracle :=
  { queryRoutesResult := Except.ok [{ totalTimeLock := 144 }], getInfoResult := Except.ok 0 }

/-! Helper lemmas about the registry and the deal state machine. -/

theorem getDeal_mapSet_self (m : DealMap) (k : String) (v : SwapDeal) :
    getDeal (mapSet m k v) k = some v := by
  induction m with
  | nil => simp [mapSet, getDeal]
  | cons kv rest ih =>
    obtain ⟨k1, v1⟩ := kv
    by_cases h : k1 = k
    · simp [mapSet, getDeal, h]
    · simp [mapSet, getDeal, h, ih]

theorem countFailed_append (a b : List SwapEvent) :
    countFailed (a ++ b) = countFailed a + countFailed b := by
  simp [countFailed, List.filter_append]

theorem countPaid_append (a b : List SwapEvent) :
    countPaid (a ++ b) = countPaid a + countPaid b := by
  simp [countPaid, List.filter_append]

/-- A successful state machine operation on a non-`Active` deal can only be a
repeated `Error` report: it freezes phase and state, emits nothing, and only
concatenates the state reason. -/
theorem stepDeal_not_active {d : SwapDeal} {op : DealOp} {d1 : SwapDeal}
    {evs : List SwapEvent} (hA : d.state ≠ SwapDealState.Active)
    (h : stepDeal d op = Except.ok (d1, evs)) :
    d1.phase = d.phase ∧ d1.state = d.state ∧ evs = [] ∧
      ∃ r, op = DealOp.setState SwapDealState.Error r ∧
        d.state = SwapDealState.Error ∧
        d1.stateReason = d.stateReason ++ "; " ++ r := by
  cases op with
  | setState s reason =>
    by_cases h1 : d.state = s ∧ d.state = SwapDealState.Error
    · simp only [stepDeal, setDealState, if_pos h1] at h
      obtain ⟨rfl, rfl⟩ := by simpa using h
      exact ⟨rfl, rfl, rfl, reason, by rw [← h1.1, h1.2], h1.2, rfl⟩
    · simp [stepDeal, setDealState, h1, hA] at h
  | setPhase p now =>
    simp [stepDeal, setDealPhase, hA] at h

/-- Runs from a non-`Active` deal freeze phase and state and emit nothing. -/
theorem runDeal_not_active {d : SwapDeal} {ops : List DealOp} {d1 : SwapDeal}
    {evs : List SwapEvent} (hA : d.state ≠ SwapDealState.Active)
    (h : runDeal d ops = Except.ok (d1, evs)) :
    d1.phase = d.phase ∧ d1.state = d.state ∧ evs = [] := by
  induction ops generalizing d evs with
  | nil =>
    obtain ⟨rfl, rfl⟩ := by simpa [runDeal] using h
    exact ⟨rfl, rfl, rfl⟩
  | cons op ops ih =>
    simp only [runDeal] at h
    cases hs : stepDeal d op with
    | error e => rw [hs] at h; cases h
    | ok pr =>
      obtain ⟨dm, evs1⟩ := pr
      rw [hs] at h
      dsimp only at h
      cases hr : runDeal dm ops with
      | error e => rw [hr] at h; cases h
      | ok pr2 =>
        obtain ⟨d2, evs2⟩ := pr2
        rw [hr] at h
        obtain ⟨rfl, rfl⟩ := by simpa using h
        obtain ⟨hp1, hs1, he1, -⟩ := stepDeal_not_active hA hs
        have hAm : dm.state ≠ SwapDealState.Active := by rw [hs1]; exact hA
        obtain ⟨hp2, hs2, he2⟩ := ih hAm hr
        exact ⟨hp2.trans hp1, hs2.trans hs1, by simp [he1, he2]⟩

/-- `setDealState` from an `Active` deal always succeeds: it installs the new
state and reason, and emits `swap.failed` exactly when the new state is
`Error`. -/
theorem setDealState_active {d : SwapDeal} (s : SwapDealState) (r : String)
    (hA : d.state = SwapDealState.Active) :
    setDealState d s r = Except.ok ({ d with state := s, stateReason := r },
      if s = SwapDealState.Error then
        [SwapEvent.swapFailed { d with state := s, stateReason := r }]
      else []) := by
  simp only [setDealState]
  rw [if_neg (by rw [hA]; rintro ⟨-, h2⟩; cases h2)]
  rw [if_neg (by rw [hA]; simp)]
  by_cases hs : s = SwapDealState.Error
  · rw [if_pos hs, if_pos hs]
  · rw [if_neg hs, if_neg hs]

/-- Event accounting for a single successful operation on an `Active` deal:
`swap.failed` is emitted exactly when the deal moves to `Error`, `swap.paid`
exactly when the phase first reaches `AmountReceived`, and reaching
`AmountReceived` is irreversible. -/
theorem stepDeal_active_counts {d : SwapDeal} {op : DealOp} {d1 : SwapDeal}
    {evs : List SwapEvent} (hA : d.state = SwapDealState.Active)
    (h : stepDeal d op = Except.ok (d1, evs)) :
    countFailed evs = (if d1.state = SwapDealState.Error then 1 else 0) ∧
    countPaid evs = (if ¬ reachedPaid d ∧ reachedPaid d1 then 1 else 0) ∧
    (reachedPaid d → reachedPaid d1) := by
  cases op with
  | setState s reason =>
    simp only [stepDeal] at h
    rw [setDealState_active s reason hA] at h
    obtain ⟨rfl, rfl⟩ := by simpa using h
    refine ⟨?_, ?_, fun hr => hr⟩
    · by_cases hs : s = SwapDealState.Error <;>
        simp [countFailed, SwapEvent.isFailed, hs]
    · have hnc : ¬ (¬ reachedPaid d ∧
          reachedPaid { d with state := s, stateReason := reason }) := fun hc => hc.1 hc.2
      rw [if_neg hnc]
      by_cases hs : s = SwapDealState.Error <;>
        simp [countPaid, SwapEvent.isPaid, hs]
  | setPhase p now =>
    simp only [stepDeal] at h
    cases p with
    | SwapCreated =>
      simp only [setDealPhase] at h
      rw [if_neg (by rw [hA]; simp)] at h
      cases h
    | SwapRequested =>
      simp only [setDealPhase] at h
      rw [if_neg (by rw [hA]; simp)] at h
      split at h
      · cases h
      · split at h
        · cases h
        · rename_i h1 h2
          rw [not_not] at h2
          simp only [finishDealPhase] at h
          obtain ⟨rfl, rfl⟩ := by simpa using h
          refine ⟨?_, ?_, ?_⟩ <;>
            simp [countFailed, countPaid, reachedPaid, hA, h2]
    | SwapAgreed =>
      simp only [setDealPhase] at h
      rw [if_neg (by rw [hA]; simp)] at h
      split at h
      · cases h
      · split at h
        · cases h
        · rename_i h1 h2
          rw [not_not] at h2
          simp only [finishDealPhase] at h
          obtain ⟨rfl, rfl⟩ := by simpa using h
          refine ⟨?_, ?_, ?_⟩ <;>
            simp [countFailed, countPaid, reachedPaid, hA, h2]
    | AmountSent =>
      simp only [setDealPhase] at h
      rw [if_neg (by rw [hA]; simp)] at h
      split at h
      · rename_i h1
        have hph : d.phase = SwapDealPhase.SwapRequested ∨
            d.phase = SwapDealPhase.SwapAgreed := by
          rcases h1 with ⟨-, h2⟩ | ⟨-, h2⟩
          · exact Or.inl h2
          · exact Or.inr h2
        simp only [finishDealPhase] at h
        obtain ⟨rfl, rfl⟩ := by simpa using h
        rcases hph with h2 | h2 <;>
          refine ⟨?_, ?_, ?_⟩ <;>
            simp [countFailed, countPaid, reachedPaid, hA, h2]
      · cases h
    | AmountReceived =>
      simp only [setDealPhase] at h
      rw [if_neg (by rw [hA]; simp)] at h
      split at h
      · cases h
      · rename_i h1
        rw [not_not] at h1
        simp only [finishDealPhase] at h
        obtain ⟨rfl, rfl⟩ := by simpa using h
        refine ⟨?_, ?_, ?_⟩ <;>
          simp [countFailed, countPaid, SwapEvent.isFailed, SwapEvent.isPaid, reachedPaid,
            hA, h1]
    | SwapCompleted =>
      simp only [setDealPhase] at h
      rw [if_neg (by rw [hA]; simp)] at h
      split at h
      · cases h
      · rename_i h1
        rw [not_not] at h1
        rw [setDealState_active _ _ (by simpa using hA)] at h
        obtain ⟨rfl, rfl⟩ := by simpa [finishDealPhase] using h
        refine ⟨?_, ?_, ?_⟩ <;>
          simp [countFailed, countPaid, reachedPaid, h1]

/-- Event accounting over a whole run from an `Active` deal. -/
theorem runDeal_active_counts {d : SwapDeal} {ops : List DealOp} {d1 : SwapDeal}
    {evs : List SwapEvent} (hA : d.state = SwapDealState.Active)
    (h : runDeal d ops = Except.ok (d1, evs)) :
    countFailed evs = (if d1.state = SwapDealState.Error then 1 else 0) ∧
    countPaid evs = (if ¬ reachedPaid d ∧ reachedPaid d1 then 1 else 0) ∧
    (reachedPaid d → reachedPaid d1) := by
  induction ops generalizing d evs with
  | nil =>
    obtain ⟨rfl, rfl⟩ := by simpa [runDeal] using h
    refine ⟨by simp [countFailed, hA], ?_, fun hr => hr⟩
    have hnc : ¬ (¬ reachedPaid d ∧ reachedPaid d) := fun hc => hc.1 hc.2
    rw [if_neg hnc]
    simp [countPaid]
  | cons op ops ih =>
    simp only [runDeal] at h
    cases hs : stepDeal d op with
    | error e => rw [hs] at h; cases h
    | ok pr =>
      obtain ⟨dm, evs1⟩ := pr
      rw [hs] at h
      dsimp only at h
      cases hr : runDeal dm ops with
      | error e => rw [hr] at h; cases h
      | ok pr2 =>
        obtain ⟨d2, evs2⟩ := pr2
        rw [hr] at h
        obtain ⟨rfl, rfl⟩ := by simpa using h
        obtain ⟨hf1, hp1, hm1⟩ := stepDeal_active_counts hA hs
        by_cases hm : dm.state = SwapDealState.Active
        · obtain ⟨hf2, hp2, hm2⟩ := ih hm hr
          refine ⟨?_, ?_, fun hrd => hm2 (hm1 hrd)⟩
          · rw [countFailed_append, hf1, hf2]
            simp [hm]
          · rw [countPaid_append, hp1, hp2]
            by_cases ha : reachedPaid d
            · rw [if_neg (fun hc => hc.1 ha), if_neg (fun hc => hc.1 (hm1 ha)),
                if_neg (fun hc => hc.1 ha)]
            · by_cases hb : reachedPaid dm
              · rw [if_pos ⟨ha, hb⟩, if_neg (fun hc => hc.1 hb), if_pos ⟨ha, hm2 hb⟩]
              · by_cases hc : reachedPaid d2
                · rw [if_neg (fun hx => hb hx.2), if_pos ⟨hb, hc⟩, if_pos ⟨ha, hc⟩]
                · rw [if_neg (fun hx => hb hx.2), if_neg (fun hx => hc hx.2),
                    if_neg (fun hx => hc hx.2)]
        · obtain ⟨hpz, hsz, rfl⟩ := runDeal_not_active hm hr
          have hre : reachedPaid d2 ↔ reachedPaid dm := by
            rw [reachedPaid, reachedPaid, hpz]
          refine ⟨?_, ?_, fun hrd => hre.mpr (hm1 hrd)⟩
          · rw [countFailed_append, hf1]
            rw [hsz]
            simp [countFailed]
          · rw [countPaid_append, hp1]
            simp [countPaid, hre]

/-- C6: once a deal's state is `Error` or `Completed`, no successful sequence of
state machine operations changes its phase or state or emits any event; the
single succeeding operation is a further `Error` assignment while already in
`Error`, which appends `"; <reason>"` to `stateReason` without re-emitting
`swap.failed`; every other operation is rejected by an assertion. -/
theorem c6_terminal_states_frozen (d : SwapDeal) (ops : List DealOp) (d1 : SwapDeal)
    (evs : List SwapEvent)
    (hT : d.state = SwapDealState.Error ∨ d.state = SwapDealState.Completed)
    (h : runDeal d ops = Except.ok (d1, evs)) :
    (d1.phase = d.phase ∧ d1.state = d.state ∧ evs = []) ∧
    (∀ op d2 evs2, stepDeal d op = Except.ok (d2, evs2) →
      d2.phase = d.phase ∧ d2.state = d.state ∧ evs2 = [] ∧
        ∃ r, op = DealOp.setState SwapDealState.Error r ∧
          d.state = SwapDealState.Error ∧
          d2.stateReason = d.stateReason ++ "; " ++ r) := by
  have hA : d.state ≠ SwapDealState.Active := by
    rcases hT with h1 | h1 <;> rw [h1] <;> simp
  exact ⟨runDeal_not_active hA h, fun op d2 evs2 hstep => stepDeal_not_active hA hstep⟩

/-- Witness for C6: a deal in `Error("A")` receiving a second error `"B"` keeps
its phase and state, emits nothing, and ends with `stateReason = "A; B"`. -/
theorem c6_terminal_states_frozen_witness :
    ∃ d1 evs, runDeal c6Deal c6Ops = Except.ok (d1, evs) ∧
      ((d1.phase = c6Deal.phase ∧ d1.state = c6Deal.state ∧ evs = []) ∧
       (∀ op d2 evs2, stepDeal c6Deal op = Except.ok (d2, evs2) →
         d2.phase = c6Deal.phase ∧ d2.state = c6Deal.state ∧ evs2 = [] ∧
           ∃ r, op = DealOp.setState SwapDealState.Error r ∧
             c6Deal.state = SwapDealState.Error ∧
             d2.stateReason = c6Deal.stateReason ++ "; " ++ r)) := by
  refine ⟨_, _, rfl, c6_terminal_states_frozen c6Deal c6Ops _ _ (Or.inl rfl) rfl⟩

/-- C2 (amended): over any successful run of state machine operations on an
`Active` deal, `swap.failed` is emitted exactly once if the deal ends in
`Error` and never otherwise, and `swap.paid` is emitted at most once; however,
contrary to the original claim, one deal can emit BOTH events (see the
counterexample theorem). -/
theorem c2_single_emission (d : SwapDeal) (ops : List DealOp) (d1 : SwapDeal)
    (evs : List SwapEvent) (hA : d.state = SwapDealState.Active)
    (h : runDeal d ops = Except.ok (d1, evs)) :
    countFailed evs = (if d1.state = SwapDealState.Error then 1 else 0) ∧
    countPaid evs ≤ 1 := by
  obtain ⟨h1, h2, -⟩ := runDeal_active_counts hA h
  refine ⟨h1, ?_⟩
  rw [h2]
  split <;> simp

/-- C2 counterexample: a maker deal at `AmountSent` that reaches
`AmountReceived` (emitting `swap.paid`) and then receives an error report
(emitting `swap.failed`) leaves `Active` to `Error` having emitted BOTH events,
refuting "exactly one of swap.paid or swap.failed ... never both". -/
theorem c2_both_events_emitted :
    ∃ d1 evs, runDeal c2Deal c2Ops = Except.ok (d1, evs) ∧
      d1.state = SwapDealState.Error ∧ countPaid evs = 1 ∧ countFailed evs = 1 := by
  refine ⟨_, _, rfl, rfl, rfl, rfl⟩

/-- Witness for the amended C2 on the concrete run `c2Deal`/`c2Ops`. -/
theorem c2_single_emission_witness :
    ∃ d1 evs, runDeal c2Deal c2Ops = Except.ok (d1, evs) ∧
      (countFailed evs = (if d1.state = SwapDealState.Error then 1 else 0) ∧
       countPaid evs ≤ 1) := by
  refine ⟨_, _, rfl, c2_single_emission c2Deal c2Ops _ _ rfl rfl⟩

/-- C8: for an `r_hash` with no entry in the deal registry,
`handleSwapComplete` and `handleSwapError` are no-ops: the registry is
unchanged (so every existing deal is unchanged), no event is emitted, and no
packet is sent. -/
theorem c8_unknown_hash_noop (deals : DealMap) (h : String) (msg : String) (now : ℚ)
    (hnone : getDeal deals h = none) :
    handleSwapComplete deals h now = Except.ok (deals, [], []) ∧
    handleSwapError deals h msg = Except.ok (deals, [], []) := by
  constructor <;> simp [handleSwapComplete, handleSwapError, hnone]

/-- Witness for C8 on the empty registry. -/
theorem c8_unknown_hash_noop_witness :
    handleSwapComplete [] "deadbeef" 0 = Except.ok ([], [], []) ∧
    handleSwapError [] "deadbeef" "boom" = Except.ok ([], [], []) :=
  c8_unknown_hash_noop [] "deadbeef" "boom" 0 rfl

/-- C9: an inbound swap-complete for a deal found in the registry whose state
is not `Active` or whose phase is not `AmountReceived` makes
`handleSwapComplete` fail an assertion inside `setDealPhase` (modelled as
`Except.error`), rather than setting the deal to `Error` or leaving it
unchanged. -/
theorem c9_premature_swap_complete_asserts (deals : DealMap) (r_hash : String)
    (deal : SwapDeal) (now : ℚ) (hfound : getDeal deals r_hash = some deal)
    (hbad : deal.state ≠ SwapDealState.Active ∨
      deal.phase ≠ SwapDealPhase.AmountReceived) :
    ∃ e, handleSwapComplete deals r_hash now = Except.error e := by
  simp only [handleSwapComplete, hfound]
  by_cases hs : deal.state = SwapDealState.Active
  · have hp : deal.phase ≠ SwapDealPhase.AmountReceived := by
      rcases hbad with h1 | h1
      · exact absurd hs h1
      · exact h1
    simp only [setDealPhase]
    rw [if_neg (by rw [hs]; simp)]
    rw [if_pos hp]
    exact ⟨_, rfl⟩
  · simp only [setDealPhase]
    rw [if_pos hs]
    exact ⟨_, rfl⟩

/-- Witness for C9: a duplicate/premature swap-complete for the registered
taker deal (still at `SwapRequested`) reaches an assertion failure. -/
theorem c9_premature_swap_complete_asserts_witness :
    ∃ e, handleSwapComplete exampleDeals "h1" 0 = Except.error e :=
  c9_premature_swap_complete_asserts exampleDeals "h1" exampleTakerDeal 0 rfl
    (Or.inr (by decide))

/-- C3: in `acceptDeal`, when the maker currency is BTC the computed
`makerCltvDelta` equals `btc.cltvDelta + routeCltvDelta / (ltc.cltvDelta /
btc.cltvDelta)` where `routeCltvDelta` is the first route's total timelock
minus the queried block height; with `btc.cltvDelta = 40`,
`ltc.cltvDelta = 576` and `routeCltvDelta = 144` the result is exactly 50. -/
theorem c3_maker_cltv_btc :
    (∀ btcCltvDelta ltcCltvDelta firstTTL height : ℚ,
      acceptDealMakerCltvDelta "BTC" btcCltvDelta ltcCltvDelta firstTTL height =
        some (btcCltvDelta + (firstTTL - height) / (ltcCltvDelta / btcCltvDelta))) ∧
    acceptDealMakerCltvDelta "BTC" 40 576 144 0 = some 50 := by
  constructor
  · intro b l t h
    simp [acceptDealMakerCltvDelta]
  · rw [acceptDealMakerCltvDelta]
    norm_num

/-- Witness for C3 at the concrete inputs of spec property B4. -/
theorem c3_maker_cltv_btc_witness :
    acceptDealMakerCltvDelta "BTC" 40 576 144 0 = some (40 + (144 - 0) / (576 / 40)) :=
  c3_maker_cltv_btc.1 40 576 144 0

/-- C4: code bug — when the synchronous HTLC send succeeds,
`handleSwapResponse` does NOT verify the returned preimage against the deal's
stored preimage (the comparison is a TODO at Swaps.ts:477): with stored
preimage `"aa11"` and a mismatching returned preimage `"deadbeef"` the deal
still advances to `SwapCompleted` (state `Completed`) and a swap-complete
packet is sent, instead of the deal being set to `Error`. -/
theorem c4_no_preimage_check_on_success :
    ∃ d1 evs, handleSendSuccess c4Deal "h1" "deadbeef" 9 =
        Except.ok (d1, evs, [OutPacket.swapComplete "h1"]) ∧
      c4Deal.r_preimage = some "aa11" ∧ ("deadbeef" : String) ≠ "aa11" ∧
      d1.phase = SwapDealPhase.SwapCompleted ∧ d1.state = SwapDealState.Completed := by
  refine ⟨_, _, rfl, rfl, by decide, rfl, rfl⟩

/-- C1: for every deal found in the registry by `resolveHash` (with the
role-dependent CLTV delta defined and the deal `Active`), validation sets the
deal state to `Error` and `resolveHash` returns the deal's reason string (not a
preimage) when the incoming HTLC's msat amount is strictly below the
role-dependent expected amount times 1000, or when `timeout - heightNow` is
strictly below the role-dependent required CLTV delta; when both checks pass,
validation succeeds leaving the deal unchanged and sets no `Error`. -/
theorem c1_resolve_hash_validation (deals : DealMap) (req : ResolveRequest)
    (deal : SwapDeal) (mcd : ℚ) (outcome : SendOutcome) (now : ℚ)
    (hfound : getDeal deals req.hash = some deal)
    (hA : deal.state = SwapDealState.Active)
    (hmcd : deal.makerCltvDelta = some mcd) :
    ((req.amount < (match deal.myRole with
        | SwapDealRole.Maker => deal.makerAmount
        | SwapDealRole.Taker => deal.takerAmount) * 1000 ∨
      req.timeout - req.heightNow < (match deal.myRole with
        | SwapDealRole.Maker => mcd
        | SwapDealRole.Taker => deal.takerCltvDelta)) →
      ∃ d1 evs, resolveHash deals req outcome now =
          Except.ok (mapSet deals req.hash d1, evs, d1.stateReason) ∧
        d1.state = SwapDealState.Error) ∧
    (((match deal.myRole with
        | SwapDealRole.Maker => deal.makerAmount
        | SwapDealRole.Taker => deal.takerAmount) * 1000 ≤ req.amount ∧
      (match deal.myRole with
        | SwapDealRole.Maker => mcd
        | SwapDealRole.Taker => deal.takerCltvDelta) ≤ req.timeout - req.heightNow) →
      validateRequest deal req = Except.ok (deal, [], true)) := by
  cases hrole : deal.myRole with
  | Taker =>
    simp only [hrole]
    constructor
    · intro hor
      by_cases hamt : req.amount < deal.takerAmount * 1000
      · refine ⟨{ deal with state := SwapDealState.Error, stateReason := "Amount sent from " ++ "Maker" ++ " to " ++ "destination" ++ "is too small" }, [SwapEvent.swapFailed { deal with state := SwapDealState.Error, stateReason := "Amount sent from " ++ "Maker" ++ " to " ++ "destination" ++ "is too small" }], ?_, rfl⟩
        simp only [resolveHash, hfound, validateRequest, hrole]
        rw [if_pos hamt, setDealState_active _ _ hA]
        simp [hrole, hmcd]
      · have hc : req.timeout - req.heightNow < deal.takerCltvDelta :=
          hor.resolve_left hamt
        refine ⟨{ deal with state := SwapDealState.Error, stateReason := "cltvDelta sent from " ++ "Maker" ++ " to " ++ "destination" ++ "is too small" }, [SwapEvent.swapFailed { deal with state := SwapDealState.Error, stateReason := "cltvDelta sent from " ++ "Maker" ++ " to " ++ "destination" ++ "is too small" }], ?_, rfl⟩
        simp only [resolveHash, hfound, validateRequest, hrole]
        rw [if_neg hamt, if_pos (by simpa using hc), setDealState_active _ _ hA]
        simp [hrole, hmcd]
    · rintro ⟨ha, hc⟩
      simp only [validateRequest, hrole]
      rw [if_neg (not_lt.mpr ha), if_neg (by simpa using not_lt.mpr hc)]
  | Maker =>
    simp only [hrole]
    constructor
    · intro hor
      by_cases hamt : req.amount < deal.makerAmount * 1000
      · refine ⟨{ deal with state := SwapDealState.Error, stateReason := "Amount sent from " ++ "Taker" ++ " to " ++ "destination" ++ "is too small" }, [SwapEvent.swapFailed { deal with state := SwapDealState.Error, stateReason := "Amount sent from " ++ "Taker" ++ " to " ++ "destination" ++ "is too small" }], ?_, rfl⟩
        simp only [resolveHash, hfound, validateRequest, hrole]
        rw [if_pos hamt, setDealState_active _ _ hA]
        simp [hrole, hmcd]
      · have hc : req.timeout - req.heightNow < mcd := hor.resolve_left hamt
        refine ⟨{ deal with state := SwapDealState.Error, stateReason := "cltvDelta sent from " ++ "Taker" ++ " to " ++ "destination" ++ "is too small" }, [SwapEvent.swapFailed { deal with state := SwapDealState.Error, stateReason := "cltvDelta sent from " ++ "Taker" ++ " to " ++ "destination" ++ "is too small" }], ?_, rfl⟩
        simp only [resolveHash, hfound, validateRequest, hrole, hmcd]
        rw [if_neg hamt, if_pos (by simpa using hc), setDealState_active _ _ hA]
        simp [hrole, hmcd]
    · rintro ⟨ha, hc⟩
      simp only [validateRequest, hrole, hmcd]
      rw [if_neg (not_lt.mpr ha), if_neg (by simpa using not_lt.mpr hc)]

/-- Witness for C1: an incoming HTLC one msat short of the expected amount
drives the registered taker deal to `Error` and `resolveHash` returns the
reason string. -/
theorem c1_resolve_hash_validation_witness :
    ∃ d1 evs, resolveHash exampleDeals c1ReqSmall (SendOutcome.success "aa11") 0 =
        Except.ok (mapSet exampleDeals c1ReqSmall.hash d1, evs, d1.stateReason) ∧
      d1.state = SwapDealState.Error :=
  (c1_resolve_hash_validation exampleDeals c1ReqSmall exampleTakerDeal 50
    (SendOutcome.success "aa11") 0 rfl rfl rfl).1
    (Or.inl (by norm_num [exampleTakerDeal, c1ReqSmall]))

/-- C5: code bug — `handleSwapResponse` records an accepted quantity GREATER
than the proposed quantity (2 > 1) on the deal and still advances it to
`AmountSent`, issuing the HTLC send (the bound checks are TODOs at
Swaps.ts:434-437); a response with quantity 0 is not recorded but the deal is
also still advanced and the HTLC send still issued. -/
theorem c5_quantity_bounds_not_enforced :
    (∃ d1 evs pkts, handleSwapResponse exampleDeals c5Body examplePeer
        (SendOutcome.paymentError "pe") 3 =
        Except.ok ([("h1", d1)], evs, pkts,
          [{ amt := 100000000, destString := some "btcPK", paymentHashString := "h1",
             finalCltvDelta := some 50 }]) ∧
      d1.quantity = some 2 ∧ d1.proposedQuantity = 1 ∧
      d1.phase = SwapDealPhase.AmountSent) ∧
    (∃ d1 evs pkts, handleSwapResponse exampleDeals c5BodyZero examplePeer
        (SendOutcome.paymentError "pe") 3 =
        Except.ok ([("h1", d1)], evs, pkts,
          [{ amt := 100000000, destString := some "btcPK", paymentHashString := "h1",
             finalCltvDelta := some 50 }]) ∧
      d1.quantity = none ∧ d1.phase = SwapDealPhase.AmountSent) := by
  constructor
  · exact ⟨_, _, _, rfl, rfl, rfl, rfl⟩
  · exact ⟨_, _, _, rfl, rfl, rfl⟩

/-- C7: code bug — the invariant `makerAmount = round(quantity * 10^8)` /
`takerAmount = round(quantity * price * 10^8)` is violated on a reachable
state: a taker deal created by `beginSwap` for quantity 2 keeps its original
amounts when `handleSwapResponse` records an accepted quantity of 1 (the
recalculation is commented out under a TODO at Swaps.ts:438-444). -/
theorem c7_amounts_not_recalculated :
    ∃ deals1 evs1 pkts1 d1 evs2 pkts2 sends,
      beginSwap exampleEnv "pre7" "h7" [] c7Maker c7Taker examplePeer =
        Except.ok (deals1, evs1, pkts1, some "h7") ∧
      handleSwapResponse deals1 c7Body examplePeer (SendOutcome.paymentError "no route") 1 =
        Except.ok ([("h7", d1)], evs2, pkts2, sends) ∧
      d1.quantity = some 1 ∧ d1.price = 1 / 100 ∧
      d1.makerAmount = 200000000 ∧ d1.takerAmount = 2000000 ∧
      mathRound (1 * 100000000) = 100000000 ∧
      mathRound (1 * (1 / 100) * 100000000) = 1000000 ∧
      d1.makerAmount ≠ mathRound (1 * 100000000) ∧
      d1.takerAmount ≠ mathRound (1 * d1.price * 100000000) := by
  refine ⟨_, _, _, _, _, _, _, rfl, rfl, rfl, rfl, ?_, ?_, ?_, ?_, ?_, ?_⟩
  · simp [c7Body]
    norm_num [calculateSwapAmounts, mathRound, c7Taker, c7Maker, Int.floor_eq_iff]
  · simp [c7Body]
    norm_num [calculateSwapAmounts, mathRound, c7Taker, c7Maker, Int.floor_eq_iff]
  · norm_num [mathRound, Int.floor_eq_iff]
  · norm_num [mathRound, Int.floor_eq_iff]
  · simp [c7Body]
    norm_num [calculateSwapAmounts, mathRound, c7Taker, c7Maker, Int.floor_eq_iff]
  · simp [c7Body]
    norm_num [calculateSwapAmounts, mathRound, c7Taker, c7Maker, Int.floor_eq_iff]

/-- `setDealState` only touches `state` and `stateReason`. -/
theorem setDealState_fields {deal : SwapDeal} {s : SwapDealState} {r : String}
    {d1 : SwapDeal} {evs : List SwapEvent}
    (h : setDealState deal s r = Except.ok (d1, evs)) :
    d1.r_hash = deal.r_hash ∧ d1.myRole = deal.myRole ∧
    d1.localOrderId = deal.localOrderId ∧ d1.price = deal.price ∧
    d1.createTime = deal.createTime ∧ d1.quantity = deal.quantity ∧
    d1.proposedQuantity = deal.proposedQuantity := by
  simp only [setDealState] at h
  split at h
  · obtain ⟨rfl, -⟩ := by simpa using h
    exact ⟨rfl, rfl, rfl, rfl, rfl, rfl, rfl⟩
  · split at h
    · cases h
    · split at h <;>
        (obtain ⟨rfl, -⟩ := by simpa using h
         exact ⟨rfl, rfl, rfl, rfl, rfl, rfl, rfl⟩)

/-- `setDealPhase` only touches `phase`, the timestamps, and (for
`SwapCompleted`) `state`/`stateReason`. -/
theorem setDealPhase_fields {deal : SwapDeal} {p : SwapDealPhase} {now : ℚ}
    {d1 : SwapDeal} {evs : List SwapEvent}
    (h : setDealPhase deal p now = Except.ok (d1, evs)) :
    d1.r_hash = deal.r_hash ∧ d1.myRole = deal.myRole ∧
    d1.localOrderId = deal.localOrderId ∧ d1.price = deal.price ∧
    d1.createTime = deal.createTime ∧ d1.quantity = deal.quantity ∧
    d1.proposedQuantity = deal.proposedQuantity := by
  cases p with
  | SwapCreated =>
    simp only [setDealPhase] at h
    split at h
    · cases h
    · cases h
  | SwapRequested =>
    simp only [setDealPhase] at h
    split at h
    · cases h
    · split at h
      · cases h
      · split at h
        · cases h
        · simp only [finishDealPhase] at h
          obtain ⟨rfl, -⟩ := by simpa using h
          exact ⟨rfl, rfl, rfl, rfl, rfl, rfl, rfl⟩
  | SwapAgreed =>
    simp only [setDealPhase] at h
    split at h
    · cases h
    · split at h
      · cases h
      · split at h
        · cases h
        · simp only [finishDealPhase] at h
          obtain ⟨rfl, -⟩ := by simpa using h
          exact ⟨rfl, rfl, rfl, rfl, rfl, rfl, rfl⟩
  | AmountSent =>
    simp only [setDealPhase] at h
    split at h
    · cases h
    · split at h
      · simp only [finishDealPhase] at h
        obtain ⟨rfl, -⟩ := by simpa using h
        exact ⟨rfl, rfl, rfl, rfl, rfl, rfl, rfl⟩
      · cases h
  | AmountReceived =>
    simp only [setDealPhase] at h
    split at h
    · cases h
    · split at h
      · cases h
      · simp only [finishDealPhase] at h
        obtain ⟨rfl, -⟩ := by simpa using h
        exact ⟨rfl, rfl, rfl, rfl, rfl, rfl, rfl⟩
  | SwapCompleted =>
    simp only [setDealPhase] at h
    split at h
    · cases h
    · split at h
      · cases h
      · cases hsd : setDealState { deal with competionTime := some now }
            SwapDealState.Completed
            ("Swap completed. preimage = " ++ (deal.r_preimage.getD "undefined")) with
        | error e => rw [hsd] at h; cases h
        | ok pr =>
          obtain ⟨d2, evs2⟩ := pr
          rw [hsd] at h
          dsimp only at h
          simp only [finishDealPhase] at h
          obtain ⟨rfl, -⟩ := by simpa using h
          obtain ⟨h1, h2, h3, h4, h5, h6, h7⟩ := setDealState_fields hsd
          exact ⟨h1, h2, h3, h4, h5, h6, h7⟩

/-- The failure exit of `acceptDeal` writes back an `Error` copy of the deal it
was given, preserving the identifying fields. -/
theorem acceptDealFail_ok {deals : DealMap} {deal : SwapDeal} {msg reqId : String}
    {deals1 : DealMap} {evs : List SwapEvent} {pkts : List OutPacket} {b : Bool}
    (h : acceptDealFail deals deal msg reqId = Except.ok (deals1, evs, pkts, b)) :
    ∃ d1, deals1 = mapSet deals d1.r_hash d1 ∧ d1.r_hash = deal.r_hash ∧
      d1.myRole = deal.myRole ∧ d1.localOrderId = deal.localOrderId ∧
      d1.price = deal.price ∧ d1.createTime = deal.createTime ∧
      d1.quantity = deal.quantity ∧ d1.proposedQuantity = deal.proposedQuantity := by
  simp only [acceptDealFail] at h
  cases hsd : setDealState deal SwapDealState.Error msg with
  | error e => rw [hsd] at h; cases h
  | ok pr =>
    obtain ⟨d1, evs1⟩ := pr
    rw [hsd] at h
    dsimp only at h
    obtain ⟨rfl, -, -, -⟩ := by simpa using h
    obtain ⟨h1, h2, h3, h4, h5, h6, h7⟩ := setDealState_fields hsd
    exact ⟨d1, rfl, h1, h2, h3, h4, h5, h6, h7⟩

/-- C10: `addDeal` silently replaces an existing registry entry with the same
`r_hash` (last write wins) and reports no error, and `acceptDeal` performs no
duplicate check: even when a deal is already registered under the request's
`r_hash`, every non-crashing outcome of `acceptDeal` leaves the registry
mapping that `r_hash` to a deal built from the new request, overwriting the
previously registered deal. -/
theorem c10_duplicate_r_hash_overwrites (deals : DealMap) (oldDeal : SwapDeal)
    (env : Env) (oracle : MakerOracle) (ota : OrderToAccept)
    (requestBody : SwapRequestBody) (reqId : String) (peer : PeerInfo)
    (hdup : getDeal deals requestBody.r_hash = some oldDeal) :
    (∀ d : SwapDeal, getDeal (addDeal deals d) d.r_hash = some d) ∧
    (∀ deals1 evs pkts accepted,
      acceptDeal env oracle deals ota requestBody reqId peer =
        Except.ok (deals1, evs, pkts, accepted) →
      ∃ d1, getDeal deals1 requestBody.r_hash = some d1 ∧
        d1.myRole = SwapDealRole.Maker ∧ d1.localOrderId = ota.localId ∧
        d1.price = ota.price ∧ d1.createTime = env.now ∧
        d1.quantity = some ota.quantityToAccept ∧
        d1.proposedQuantity = requestBody.proposedQuantity) := by
  refine ⟨fun d => getDeal_mapSet_self deals d.r_hash d, ?_⟩
  intro deals1 evs pkts accepted hacc
  simp only [acceptDeal] at hacc
  split at hacc
  · obtain ⟨d1, rfl, h1, h2, h3, h4, h5, h6, h7⟩ := acceptDealFail_ok hacc
    refine ⟨d1, ?_, h2, h3, h4, h5, h6, h7⟩
    rw [show d1.r_hash = requestBody.r_hash from h1]
    exact getDeal_mapSet_self _ _ _
  · split at hacc
    · obtain ⟨d1, rfl, h1, h2, h3, h4, h5, h6, h7⟩ := acceptDealFail_ok hacc
      refine ⟨d1, ?_, h2, h3, h4, h5, h6, h7⟩
      rw [show d1.r_hash = requestBody.r_hash from h1]
      exact getDeal_mapSet_self _ _ _
    · split at hacc
      · obtain ⟨d1, rfl, h1, h2, h3, h4, h5, h6, h7⟩ := acceptDealFail_ok hacc
        refine ⟨d1, ?_, h2, h3, h4, h5, h6, h7⟩
        rw [show d1.r_hash = requestBody.r_hash from h1]
        exact getDeal_mapSet_self _ _ _
      · split at hacc
        · obtain ⟨d1, rfl, h1, h2, h3, h4, h5, h6, h7⟩ := acceptDealFail_ok hacc
          refine ⟨d1, ?_, h2, h3, h4, h5, h6, h7⟩
          rw [show d1.r_hash = requestBody.r_hash from h1]
          exact getDeal_mapSet_self _ _ _
        · split at hacc
          · obtain ⟨d1, rfl, h1, h2, h3, h4, h5, h6, h7⟩ := acceptDealFail_ok hacc
            refine ⟨d1, ?_, h2, h3, h4, h5, h6, h7⟩
            rw [show d1.r_hash = requestBody.r_hash from h1]
            exact getDeal_mapSet_self _ _ _
          · split at hacc
            · cases hacc
            · rename_i d2 evs2 hsp
              obtain ⟨rfl, -, -, -⟩ := by simpa using hacc
              obtain ⟨h1, h2, h3, h4, h5, h6, h7⟩ := setDealPhase_fields hsp
              refine ⟨d2, ?_, h2, h3, h4, h5, h6, h7⟩
              rw [show d2.r_hash = requestBody.r_hash from h1]
              exact getDeal_mapSet_self _ _ _

/-- Witness for C10: with a deal already registered under `"h1"`, an inbound
swap request reusing `"h1"` is accepted and its maker deal replaces the old
taker deal in the registry. -/
theorem c10_duplicate_r_hash_overwrites_witness :
    ∃ deals1 evs pkts accepted d1,
      acceptDeal exampleEnv c10Oracle exampleDeals c10Order c10Request "req1"
        examplePeer = Except.ok (deals1, evs, pkts, accepted) ∧
      getDeal deals1 c10Request.r_hash = some d1 ∧
      d1.myRole = SwapDealRole.Maker ∧ d1.localOrderId = c10Order.localId ∧
      d1.quantity = some c10Order.quantityToAccept := by
  obtain ⟨-, h2⟩ := c10_duplicate_r_hash_overwrites exampleDeals exampleTakerDeal
    exampleEnv c10Oracle c10Order c10Request "req1" examplePeer rfl
  obtain ⟨d1, hga, hrole, hloc, -, -, hq, -⟩ := h2 _ _ _ _ rfl
  exact ⟨_, _, _, _, d1, rfl, hga, hrole, hloc, hq⟩

end Xud